import Mathlib

/-!
Shallow embedding of `src/_acquire.py` (the `Acquire` data-acquisition class
of the zillow-clustering-project repository).

The Python class stores three configuration strings (`file_name`,
`database_name`, `sql`) and exposes `get_data`, which delegates to
`_load_data` (cache-or-fetch) and then to the overridable hook
`_pre_preparation` (identity in the base class).

Modelling decisions:
* A pandas `DataFrame` is a list of column names plus a list of rows of cells;
  a cell is an integer or a string (the fragment of pandas dtype inference
  that matters here).
* The filesystem is a map from path strings to CSV file contents; a CSV file
  is kept in structured form (header line fields, record line fields), each
  field a string.  `pd.read_csv` parses each field back with numeric/text
  inference (`inferCell`) and rejects a file whose records do not match the
  header width (pandas raises on malformed rows).  `df.to_csv(path, index)`
  stringifies each cell; with `index = true` it would prepend a synthetic
  row-index column, the source always passes `index = False`.
* `os.path.exists p` is false for the empty path and otherwise looks the
  path up in the filesystem; writing to the empty path fails (Python's
  `open('')` raises), modelled by `fsWrite`.
* `pd.read_sql` and `get_db_url` are external collaborators: they are
  uninterpreted function parameters (`read_sql : sql → url → Except Err
  DataFrame`, `get_db_url : name → url`).  A remote/connection/query failure
  is an `Err` returned by `read_sql`.
* Methods return a `LoadResult` carrying the (unchanged) object state, the
  `Except`-wrapped dataset, the resulting filesystem, and the list of remote
  fetches performed (sql, url pairs), so that frame and effect claims are
  statable.  Exceptions propagate as `Except.error`.
-/

deriving instance DecidableEq for Except

/-- A single cell of a tabular dataset: pandas-style integer or text. -/
inductive Cell where
  | int (n : Int)
  | str (s : String)
deriving DecidableEq, Repr

/-- An in-memory tabular dataset: ordered named columns and ordered rows. -/
structure DataFrame where
  columns : List String
  rows : List (List Cell)
deriving DecidableEq, Repr

/-- Rectangularity: every row has exactly one cell per column (pandas
DataFrames are rectangular by construction). -/
def DataFrame.Rectangular (df : DataFrame) : Prop :=
  ∀ r ∈ df.rows, r.length = df.columns.length

/-- How a cell is written to a CSV field (`df.to_csv`). -/
def cellToString : Cell → String
  | .int n => toString n
  | .str s => s

/-- The numeric value of a decimal digit character, if it is one. -/
def charDigit? (c : Char) : Option Nat :=
  if 48 ≤ c.toNat ∧ c.toNat ≤ 57 then some (c.toNat - 48) else none

/-- Accumulate a decimal digit string into a natural number; `none` on any
non-digit. -/
def digitsToNat : List Char → Nat → Option Nat
  | [], acc => some acc
  | c :: cs, acc =>
    match charDigit? c with
    | some d => digitsToNat cs (acc * 10 + d)
    | none => none

/-- Parse an optionally negated decimal integer literal, the numeric format
relevant to CSV field inference. -/
def strToInt? (s : String) : Option Int :=
  match s.data with
  | [] => none
  | '-' :: cs =>
    if cs.isEmpty then none
    else (digitsToNat cs 0).map (fun n => -(n : Int))
  | cs => (digitsToNat cs 0).map (fun n => (n : Int))

/-- Numeric/text inference applied by `pd.read_csv` to each field. -/
def inferCell (s : String) : Cell :=
  match strToInt? s with
  | some n => .int n
  | none => .str s

/-- A CSV cache artifact in structured form: header fields and record
fields, all strings. -/
structure FileData where
  header : List String
  records : List (List String)
deriving DecidableEq, Repr

/-- The filesystem: a map from paths to CSV file contents. -/
abbrev FS := String → Option FileData

/-- Errors surfacing from collaborators: a missing file (`FileNotFoundError`
from `open`), a write to the empty path, a malformed cache file
(`pandas.errors.ParserError`), a database/connection/query failure. -/
inductive Err where
  | fileNotFound
  | emptyPath
  | parseError
  | dbError (msg : String)
deriving DecidableEq, Repr

/-- Model of `os.path.exists`: false on the empty path, otherwise membership in the
filesystem. -/
def os_path_exists (fs : FS) (p : String) : Bool :=
  p ≠ "" && (fs p).isSome

/-- Model of `pd.read_csv` on raw file contents: reject records not matching the
header width, otherwise parse each field with numeric/text inference. -/
def parseFileData (fd : FileData) : Except Err DataFrame :=
  if fd.records.all (fun r => r.length == fd.header.length) then
    .ok ⟨fd.header, fd.records.map (fun r => r.map inferCell)⟩
  else
    .error .parseError

/-- Model of `pd.read_csv(path)`: read the file at `path` and parse it. -/
def read_csv (fs : FS) (p : String) : Except Err DataFrame :=
  match fs p with
  | some fd => parseFileData fd
  | none => .error .fileNotFound

/-- Model of `df.to_csv(_, index)`: stringify every cell; with `index = true` a
synthetic row-index column would be prepended (the source always passes
`index = False`). -/
def to_csv (df : DataFrame) (index : Bool) : FileData :=
  if index then
    ⟨"" :: df.columns,
      (List.range df.rows.length).zip df.rows |>.map
        (fun p => toString p.1 :: p.2.map cellToString)⟩
  else
    ⟨df.columns, df.rows.map (fun r => r.map cellToString)⟩

/-- Writing a file: fails on the empty path (Python's `open('')` raises),
otherwise overwrites whatever was at `p`. -/
def fsWrite (fs : FS) (p : String) (d : FileData) : Except Err FS :=
  if p = "" then .error .emptyPath
  else .ok (fun q => if q = p then some d else fs q)

/-- The `Acquire` class state: its three configuration strings. -/
structure Acquire where
  file_name : String
  database_name : String
  sql : String
deriving DecidableEq, Repr

/-- Model of `Acquire.__init__(self, file_name = '', database_name = '', sql = '')`:
stores the three arguments verbatim; all three default to the empty
string. -/
def Acquire.init (file_name : String := "") (database_name : String := "")
    (sql : String := "") : Acquire :=
  { file_name := file_name, database_name := database_name, sql := sql }

/-- Signature of `pd.read_sql(sql, url)` as an uninterpreted collaborator. -/
abbrev ReadSql := String → String → Except Err DataFrame

/-- Signature of `get_db_url(database_name)` as an uninterpreted collaborator. -/
abbrev GetDbUrl := String → String

/-- The outcome of a method call: the object state after the call, the
returned dataset or propagated error, the filesystem after the call, and
the remote fetches performed (query, url). -/
structure LoadResult where
  self : Acquire
  result : Except Err DataFrame
  fs : FS
  fetches : List (String × String)

/-- Model of `Acquire._load_data(self, use_cache = True, cache_data = True)`:
if a file exists at `self.file_name` and `use_cache`, read it;
otherwise fetch `self.sql` from the database url of `self.database_name`,
cache the result at `self.file_name` (without index column) when
`cache_data`, and return it. -/
def Acquire._load_data (a : Acquire) (fs : FS) (get_db_url : GetDbUrl)
    (read_sql : ReadSql) (use_cache : Bool := true)
    (cache_data : Bool := true) : LoadResult :=
  if os_path_exists fs a.file_name && use_cache then
    { self := a, result := read_csv fs a.file_name, fs := fs, fetches := [] }
  else
    match read_sql a.sql (get_db_url a.database_name) with
    | .error e =>
        { self := a, result := .error e, fs := fs
          fetches := [(a.sql, get_db_url a.database_name)] }
    | .ok df =>
        if cache_data then
          match fsWrite fs a.file_name (to_csv df false) with
          | .error e =>
              { self := a, result := .error e, fs := fs
                fetches := [(a.sql, get_db_url a.database_name)] }
          | .ok fs2 =>
              { self := a, result := .ok df, fs := fs2
                fetches := [(a.sql, get_db_url a.database_name)] }
        else
          { self := a, result := .ok df, fs := fs
            fetches := [(a.sql, get_db_url a.database_name)] }

/-- Model of `Acquire._pre_preparation(self, df)`: the base-class hook does
nothing. -/
def Acquire._pre_preparation (_self : Acquire) (df : DataFrame) : DataFrame :=
  df

/-- Generalization of `get_data` with the dynamically dispatched `_pre_preparation` hook made
explicit, modelling subclass overriding: load, then apply the hook to the
loaded dataset. -/
def Acquire.get_data_hook (a : Acquire) (hook : DataFrame → DataFrame)
    (fs : FS) (get_db_url : GetDbUrl) (read_sql : ReadSql)
    (use_cache : Bool := true) (cache_data : Bool := true) : LoadResult :=
  let r := a._load_data fs get_db_url read_sql use_cache cache_data
  { r with result := r.result.map hook }

/-- Model of `Acquire.get_data(self, use_cache = True, cache_data = True)` on the
base class: the hook is `Acquire._pre_preparation`. -/
def Acquire.get_data (a : Acquire) (fs : FS) (get_db_url : GetDbUrl)
    (read_sql : ReadSql) (use_cache : Bool := true)
    (cache_data : Bool := true) : LoadResult :=
  a.get_data_hook (a._pre_preparation) fs get_db_url read_sql use_cache
    cache_data

/-- The dataset obtained by writing `df` to CSV and reading it back: every
cell goes through stringification and numeric/text inference. -/
def DataFrame.coerce (df : DataFrame) : DataFrame :=
  ⟨df.columns, df.rows.map (fun r => r.map (fun c => inferCell (cellToString c)))⟩

/-- A dataset is serialization-stable when each of its cells reads back as
itself. -/
def DataFrame.stable (df : DataFrame) : Prop :=
  ∀ r ∈ df.rows, ∀ c ∈ r, inferCell (cellToString c) = c

/-- Helper: `_load_data` never reassigns the object's fields. -/

def wFD : FileData := ⟨["c"], [["1"], ["x"]]⟩

def wFS : FS := fun p => if p = "data.csv" then some wFD else none

def wA : Acquire := ⟨"data.csv", "zillow", "SELECT 1"⟩

def wRS : ReadSql := fun _ _ => .error (.dbError "down")

def wFS0 : FS := fun _ => none

def wDF : DataFrame := ⟨["a", "b"], [[.int 7, .str "x"]]⟩

def wRS2 : ReadSql := fun _ _ => .ok wDF

def wA3 : Acquire := ⟨"", "zillow", "SELECT 1"⟩

def wRS3 : ReadSql := fun _ _ => .ok ⟨["c"], [[.int 1], [.str "x"]]⟩

def cexA : Acquire := ⟨"file.csv", "zillow", "q"⟩

def cexRS : ReadSql := fun _ _ => .ok ⟨["c"], [[.str "01"]]⟩

def cexFS : FS := fun _ => none

def wRS4 : ReadSql := fun _ _ => .ok wDF

theorem load_data_self (a : Acquire) (fs : FS) (gdb : GetDbUrl)
    (rs : ReadSql) (uc cd : Bool) :
    (a._load_data fs gdb rs uc cd).self = a := by
  unfold Acquire._load_data
  split
  · rfl
  · split
    · rfl
    · split
      · split <;> rfl
      · rfl

/-- C1: with `use_cache = true` and an existing cache file, `get_data`
returns the hook applied to the dataset parsed from the file, performs no
remote fetch, leaves the filesystem unchanged, `_load_data` returns the
parsed file itself, and the outcome is independent of the stored query, the
connection resolver, the remote source and the `cache_data` flag. -/
theorem get_data_cache_hit (a : Acquire) (hook : DataFrame → DataFrame)
    (fs : FS) (gdb gdb2 : GetDbUrl) (rs rs2 : ReadSql) (cd cd2 : Bool)
    (hne : a.file_name ≠ "") (hex : (fs a.file_name).isSome = true) :
    (a.get_data_hook hook fs gdb rs true cd).result
        = (read_csv fs a.file_name).map hook ∧
    (a.get_data_hook hook fs gdb rs true cd).fetches = [] ∧
    (a.get_data_hook hook fs gdb rs true cd).fs = fs ∧
    (a._load_data fs gdb rs true cd).result = read_csv fs a.file_name ∧
    a.get_data_hook hook fs gdb rs true cd
        = a.get_data_hook hook fs gdb2 rs2 true cd2 := by
  have hcond : (os_path_exists fs a.file_name && true) = true := by
    simp [os_path_exists, hne, hex]
  refine ⟨?_, ?_, ?_, ?_, ?_⟩ <;>
    simp [Acquire.get_data_hook, Acquire._load_data, hcond]

/-- Witness for C1 at a concrete loader, filesystem and remote source. -/
theorem get_data_cache_hit_w :
    (wA.get_data_hook id wFS id wRS true true).result
        = (read_csv wFS wA.file_name).map id ∧
    (wA.get_data_hook id wFS id wRS true true).fetches = [] :=
  ⟨(get_data_cache_hit wA id wFS id id wRS wRS true true (by decide)
      (by decide)).1,
   (get_data_cache_hit wA id wFS id id wRS wRS true true (by decide)
      (by decide)).2.1⟩

/-- C3: `get_data` is exactly the transformation hook applied to the result
of `_load_data`; the base-class hook `_pre_preparation` is the identity, so
base-class `get_data` returns the loaded dataset (and filesystem and fetch
trace) unchanged. -/
theorem get_data_delegates_to_hook (a : Acquire) (hook : DataFrame → DataFrame)
    (fs : FS) (gdb : GetDbUrl) (rs : ReadSql) (uc cd : Bool) (df : DataFrame) :
    (a.get_data_hook hook fs gdb rs uc cd).result
        = ((a._load_data fs gdb rs uc cd).result).map hook ∧
    a._pre_preparation df = df ∧
    (a.get_data fs gdb rs uc cd).result = (a._load_data fs gdb rs uc cd).result ∧
    (a.get_data fs gdb rs uc cd).fs = (a._load_data fs gdb rs uc cd).fs ∧
    (a.get_data fs gdb rs uc cd).fetches = (a._load_data fs gdb rs uc cd).fetches := by
  refine ⟨rfl, rfl, ?_, rfl, rfl⟩
  show Except.map _ _ = _
  cases (a._load_data fs gdb rs uc cd).result <;> rfl

/-- C4: with `cache_data = false` no file is created or modified: the
filesystem after `get_data` is the one before it, on every path. -/
theorem cache_data_false_no_write (a : Acquire) (hook : DataFrame → DataFrame)
    (fs : FS) (gdb : GetDbUrl) (rs : ReadSql) (uc : Bool) :
    (a.get_data_hook hook fs gdb rs uc false).fs = fs := by
  unfold Acquire.get_data_hook Acquire._load_data
  split
  · rfl
  · split <;> rfl

/-- C9: construction stores its three arguments verbatim, and every
operation (`_load_data`, `get_data_hook`, `get_data`, `_pre_preparation`)
leaves the three fields unchanged. -/
theorem construction_verbatim_fields_immutable (f d s : String) (a : Acquire)
    (hook : DataFrame → DataFrame) (fs : FS) (gdb : GetDbUrl) (rs : ReadSql)
    (uc cd : Bool) (df : DataFrame) :
    (Acquire.init f d s).file_name = f ∧
    (Acquire.init f d s).database_name = d ∧
    (Acquire.init f d s).sql = s ∧
    (a._load_data fs gdb rs uc cd).self = a ∧
    (a.get_data_hook hook fs gdb rs uc cd).self = a ∧
    (a.get_data fs gdb rs uc cd).self = a ∧
    a._pre_preparation df = df :=
  ⟨rfl, rfl, rfl, load_data_self a fs gdb rs uc cd,
   load_data_self a fs gdb rs uc cd, load_data_self a fs gdb rs uc cd, rfl⟩

/-- C10: all three constructor parameters are optional and default to the
empty string; omitting a suffix of them leaves the corresponding fields
empty, and the no-argument construction yields three empty fields. -/
theorem init_defaults_empty (f d : String) :
    (Acquire.init : Acquire) = ⟨"", "", ""⟩ ∧
    (Acquire.init f : Acquire) = ⟨f, "", ""⟩ ∧
    (Acquire.init f d : Acquire) = ⟨f, d, ""⟩ ∧
    (Acquire.init : Acquire).file_name = "" ∧
    (Acquire.init : Acquire).database_name = "" ∧
    (Acquire.init : Acquire).sql = "" :=
  ⟨rfl, rfl, rfl, rfl, rfl, rfl⟩

/-- C2: when no usable cache exists (`use_cache = false`, or no file at
`file_name`), `_load_data` performs exactly one remote fetch of the stored
query against the connection resolved from `database_name`; with
`cache_data = false` it returns the fetched dataset and leaves the
filesystem alone; with `cache_data = true` (and a writable path) it returns
the fetched dataset and overwrites `file_name` with its serialization, which
carries no synthetic row-index column. -/
theorem load_data_remote_fetch (a : Acquire) (fs : FS) (gdb : GetDbUrl)
    (rs : ReadSql) (uc cd : Bool) (df : DataFrame)
    (hmiss : (os_path_exists fs a.file_name && uc) = false)
    (hok : rs a.sql (gdb a.database_name) = .ok df) :
    (a._load_data fs gdb rs uc cd).fetches = [(a.sql, gdb a.database_name)] ∧
    (cd = false → (a._load_data fs gdb rs uc cd).result = .ok df ∧
        (a._load_data fs gdb rs uc cd).fs = fs) ∧
    (cd = true → a.file_name ≠ "" →
        (a._load_data fs gdb rs uc cd).result = .ok df ∧
        (a._load_data fs gdb rs uc cd).fs
            = (fun q => if q = a.file_name then some (to_csv df false) else fs q)) ∧
    (to_csv df false).header = df.columns := by
  refine ⟨?_, ?_, ?_, rfl⟩ <;>
    simp only [Acquire._load_data, hmiss, Bool.false_eq_true, if_false, hok]
  · split
    · split <;> rfl
    · rfl
  · rintro rfl
    exact ⟨rfl, rfl⟩
  · rintro rfl hne
    simp [fsWrite, hne]

/-- Witness for C2: a cold cache forces one fetch, returns the fetched
dataset, and writes it back. -/
theorem load_data_remote_fetch_w :
    (wA._load_data wFS0 id wRS2 true true).fetches
        = [(wA.sql, id wA.database_name)] ∧
    (wA._load_data wFS0 id wRS2 true true).result = .ok wDF :=
  ⟨(load_data_remote_fetch wA wFS0 id wRS2 true true wDF (by decide) rfl).1,
   ((load_data_remote_fetch wA wFS0 id wRS2 true true wDF (by decide)
      rfl).2.2.1 rfl (by decide)).1⟩

/-- C8: with an empty `file_name` the existence check is false, so
`_load_data` always fetches remotely; if additionally `cache_data = true`,
the write to the empty path fails at the filesystem layer and that error
surfaces unhandled (no file is written). -/
theorem empty_file_name_remote_path (a : Acquire) (fs : FS) (gdb : GetDbUrl)
    (rs : ReadSql) (uc cd : Bool) (df : DataFrame)
    (h : a.file_name = "") :
    os_path_exists fs a.file_name = false ∧
    (a._load_data fs gdb rs uc cd).fetches = [(a.sql, gdb a.database_name)] ∧
    (rs a.sql (gdb a.database_name) = .ok df →
        (a._load_data fs gdb rs uc true).result = .error .emptyPath ∧
        (a._load_data fs gdb rs uc true).fs = fs) := by
  have hex : os_path_exists fs a.file_name = false := by
    simp [os_path_exists, h]
  refine ⟨hex, ?_, ?_⟩
  · simp only [Acquire._load_data, hex, Bool.false_and, Bool.false_eq_true,
      if_false]
    cases hrem : rs a.sql (gdb a.database_name) <;>
      simp [fsWrite, h] <;> cases cd <;> simp
  · intro hok
    have hex0 : os_path_exists fs "" = false := by simp [os_path_exists]
    simp [Acquire._load_data, h, hex0, hok, fsWrite]

/-- Witness for C8: the empty-path loader fetches and then fails the cache
write with the empty-path error. -/
theorem empty_file_name_remote_path_w :
    os_path_exists wFS wA3.file_name = false ∧
    (wA3._load_data wFS id wRS2 true true).result = .error .emptyPath :=
  ⟨(empty_file_name_remote_path wA3 wFS id wRS2 true true wDF rfl).1,
   ((empty_file_name_remote_path wA3 wFS id wRS2 true true wDF rfl).2.2
      rfl).1⟩

/-- Helper: the result of `_load_data`, discriminated over the three
underlying operations it can run. -/
theorem load_data_result_char (a : Acquire) (fs : FS) (gdb : GetDbUrl)
    (rs : ReadSql) (uc cd : Bool) :
    (a._load_data fs gdb rs uc cd).result =
      (if (os_path_exists fs a.file_name && uc) = true then
        read_csv fs a.file_name
       else
        match rs a.sql (gdb a.database_name) with
        | .error e => .error e
        | .ok df =>
          if cd = true then
            match fsWrite fs a.file_name (to_csv df false) with
            | .error e => .error e
            | .ok _ => .ok df
          else .ok df) := by
  unfold Acquire._load_data
  by_cases hc : (os_path_exists fs a.file_name && uc) = true
  · simp only [if_pos hc]
  · simp only [if_neg hc]
    cases hrem : rs a.sql (gdb a.database_name) with
    | error e => rfl
    | ok df =>
      cases cd with
      | false => rfl
      | true =>
        cases hw : fsWrite fs a.file_name (to_csv df false) <;> simp [hw]

/-- Helper: the fetch trace of `_load_data`: empty on the cache path, a
single query otherwise. -/
theorem load_data_fetches_char (a : Acquire) (fs : FS) (gdb : GetDbUrl)
    (rs : ReadSql) (uc cd : Bool) :
    (a._load_data fs gdb rs uc cd).fetches =
      (if (os_path_exists fs a.file_name && uc) = true then []
       else [(a.sql, gdb a.database_name)]) := by
  unfold Acquire._load_data
  by_cases hc : (os_path_exists fs a.file_name && uc) = true
  · simp only [if_pos hc]
  · simp only [if_neg hc]
    cases hrem : rs a.sql (gdb a.database_name) with
    | error e => rfl
    | ok df =>
      cases cd with
      | false => rfl
      | true =>
        cases hw : fsWrite fs a.file_name (to_csv df false) <;> simp [hw]

/-- C5: every failure during `get_data` surfaces unmodified — the result is
an error exactly when the first underlying operation that runs (cache parse,
remote fetch, or cache write) fails, with that same error; a successful
result is the hook applied to a dataset fully materialized from the cache or
the remote source; and nothing is retried (the fetch trace is empty or a
single query). -/
theorem error_propagation (a : Acquire) (hook : DataFrame → DataFrame)
    (fs : FS) (gdb : GetDbUrl) (rs : ReadSql) (uc cd : Bool) :
    (∀ e, (a.get_data_hook hook fs gdb rs uc cd).result = .error e ↔
      (if (os_path_exists fs a.file_name && uc) = true then
        read_csv fs a.file_name = .error e
       else
        rs a.sql (gdb a.database_name) = .error e ∨
        ∃ df, rs a.sql (gdb a.database_name) = .ok df ∧ cd = true ∧
          fsWrite fs a.file_name (to_csv df false) = .error e)) ∧
    (∀ d, (a.get_data_hook hook fs gdb rs uc cd).result = .ok d →
      ∃ df, d = hook df ∧
        (read_csv fs a.file_name = .ok df ∨
         rs a.sql (gdb a.database_name) = .ok df)) ∧
    ((a.get_data_hook hook fs gdb rs uc cd).fetches = [] ∨
     (a.get_data_hook hook fs gdb rs uc cd).fetches
        = [(a.sql, gdb a.database_name)]) := by
  have hres : (a.get_data_hook hook fs gdb rs uc cd).result
      = ((a._load_data fs gdb rs uc cd).result).map hook := rfl
  have hfet : (a.get_data_hook hook fs gdb rs uc cd).fetches
      = (a._load_data fs gdb rs uc cd).fetches := rfl
  rw [hres, hfet, load_data_result_char, load_data_fetches_char]
  by_cases hc : (os_path_exists fs a.file_name && uc) = true
  · simp only [if_pos hc]
    refine ⟨?_, ?_, Or.inl trivial⟩
    · intro e
      cases hr : read_csv fs a.file_name <;> simp [Except.map]
    · intro d hd
      cases hr : read_csv fs a.file_name with
      | error e2 => rw [hr] at hd; simp [Except.map] at hd
      | ok v =>
        rw [hr] at hd
        simp only [Except.map, Except.ok.injEq] at hd
        exact ⟨v, hd.symm, Or.inl rfl⟩
  · simp only [if_neg hc]
    refine ⟨?_, ?_, Or.inr trivial⟩
    · intro e
      cases hrem : rs a.sql (gdb a.database_name) with
      | error e2 => simp [Except.map]
      | ok df0 =>
        cases cd with
        | false => simp [Except.map]
        | true =>
          cases hw : fsWrite fs a.file_name (to_csv df0 false) with
          | error e2 => simp [Except.map, hw]
          | ok fs2 => simp [Except.map, hw]
    · intro d hd
      cases hrem : rs a.sql (gdb a.database_name) with
      | error e2 => simp [hrem, Except.map] at hd
      | ok df0 =>
        simp only [hrem] at hd
        cases cd with
        | false =>
          rw [if_neg Bool.false_ne_true] at hd
          simp only [Except.map, Except.ok.injEq] at hd
          exact ⟨df0, hd.symm, Or.inr rfl⟩
        | true =>
          rw [if_pos rfl] at hd
          cases hw : fsWrite fs a.file_name (to_csv df0 false) with
          | error e2 => simp [hw, Except.map] at hd
          | ok fs2 =>
            rw [hw] at hd
            simp only [Except.map, Except.ok.injEq] at hd
            exact ⟨df0, hd.symm, Or.inr rfl⟩

/-- Witness for C5: on a warm cache the successful result decomposes as the
hook applied to a dataset read from the cache file. -/
theorem error_propagation_w :
    ∃ df, (⟨["c"], [[.int 1], [.str "x"]]⟩ : DataFrame) = id df ∧
      (read_csv wFS wA.file_name = .ok df ∨
       wRS3 wA.sql (id wA.database_name) = .ok df) :=
  (error_propagation wA id wFS id wRS3 true true).2.1
    ⟨["c"], [[.int 1], [.str "x"]]⟩ (by decide)

/-- Helper: a map whose function fixes every member is the identity. -/
theorem map_self_of_mem {α : Type} (l : List α) (f : α → α)
    (h : ∀ x ∈ l, f x = x) : l.map f = l := by
  induction l with
  | nil => rfl
  | cons a t ih =>
    rw [List.map_cons, h a (by simp), ih]
    intro x hx
    exact h x (by simp [hx])

/-- Helper: serializing a rectangular dataset with `to_csv` (no index) and
parsing it back succeeds and yields exactly the cellwise coercion of the
dataset. -/
theorem parse_to_csv (df : DataFrame) (h : df.Rectangular) :
    parseFileData (to_csv df false) = .ok df.coerce := by
  have hall : ((to_csv df false).records.all
      (fun r => r.length == (to_csv df false).header.length)) = true := by
    rw [List.all_eq_true]
    intro r hr
    simp only [to_csv, Bool.false_eq_true, if_false] at hr ⊢
    rcases List.mem_map.mp hr with ⟨row, hrow, rfl⟩
    simp [List.length_map, h row hrow]
  rw [parseFileData, if_pos hall]
  simp [to_csv, DataFrame.coerce, List.map_map, Function.comp]

/-- Helper: a serialization-stable dataset is fixed by cellwise coercion. -/
theorem coerce_of_stable (df : DataFrame) (h : df.stable) : df.coerce = df := by
  cases df with
  | mk cols rows =>
    unfold DataFrame.coerce
    simp only [DataFrame.mk.injEq, true_and]
    apply map_self_of_mem
    intro r hr
    exact map_self_of_mem r _ (fun c hc => h r hr c hc)

/-- C7: writing a (rectangular) dataset to the cache file and parsing it
back succeeds and preserves the column names, the number and order of rows,
and each cell up to numeric/text coercion on read; a serialization-stable
dataset is reproduced exactly. -/
theorem csv_round_trip (df : DataFrame) (h : df.Rectangular) :
    parseFileData (to_csv df false) = .ok df.coerce ∧
    df.coerce.columns = df.columns ∧
    df.coerce.rows.length = df.rows.length ∧
    (∀ i : Nat, df.coerce.rows[i]?
        = (df.rows[i]?).map (List.map (fun c => inferCell (cellToString c)))) ∧
    (df.stable → parseFileData (to_csv df false) = .ok df) := by
  refine ⟨parse_to_csv df h, rfl, by simp [DataFrame.coerce], ?_, ?_⟩
  · intro i
    simp [DataFrame.coerce]
  · intro hs
    rw [parse_to_csv df h, coerce_of_stable df hs]

/-- Witness for C7 at a concrete two-column dataset with a numeric-looking
text cell, which coerces on read while columns and row order survive. -/
theorem csv_round_trip_w :
    parseFileData (to_csv ⟨["a", "b"], [[.str "01", .int (-2)]]⟩ false)
        = .ok (DataFrame.coerce ⟨["a", "b"], [[.str "01", .int (-2)]]⟩) ∧
    (DataFrame.coerce ⟨["a", "b"], [[.str "01", .int (-2)]]⟩).columns
        = ["a", "b"] :=
  ⟨(csv_round_trip ⟨["a", "b"], [[.str "01", .int (-2)]]⟩
      (by unfold DataFrame.Rectangular; decide)).1,
   (csv_round_trip ⟨["a", "b"], [[.str "01", .int (-2)]]⟩
      (by unfold DataFrame.Rectangular; decide)).2.1⟩

/-- Helper: the filesystem returned by `_load_data`: unchanged except for a
successful cache write, which overwrites `file_name`. -/
theorem load_data_fs_char (a : Acquire) (fs : FS) (gdb : GetDbUrl)
    (rs : ReadSql) (uc cd : Bool) :
    (a._load_data fs gdb rs uc cd).fs =
      (if (os_path_exists fs a.file_name && uc) = true then fs
       else
        match rs a.sql (gdb a.database_name) with
        | .error _ => fs
        | .ok df =>
          if cd = true then
            match fsWrite fs a.file_name (to_csv df false) with
            | .error _ => fs
            | .ok fs2 => fs2
          else fs) := by
  unfold Acquire._load_data
  by_cases hc : (os_path_exists fs a.file_name && uc) = true
  · simp only [if_pos hc]
  · simp only [if_neg hc]
    cases hrem : rs a.sql (gdb a.database_name) with
    | error e => rfl
    | ok df =>
      cases cd with
      | false => rfl
      | true =>
        cases hw : fsWrite fs a.file_name (to_csv df false) <;> simp [hw]

/-- C6 counterexample: with a stable remote source and the cache file
carried over, a first call that populates the cache and a second call that
reads it back return different datasets: the fetched text cell "01" is
coerced to the number 1 on re-read. -/
theorem get_data_not_idempotent :
    (cexA.get_data cexFS id cexRS true true).result ≠
    (cexA.get_data (cexA.get_data cexFS id cexRS true true).fs id cexRS
        true true).result := by
  decide

/-- C6 (amended): two successive `get_data` calls with the same flags, the
same stable remote source, and the cache file carried over return equal
datasets, provided every dataset the remote source can return is rectangular
and serialization-stable (each of its cells reads back from CSV as itself);
without that proviso the populate-then-read pair can differ by numeric/text
coercion. -/
theorem get_data_idempotent_stable (a : Acquire) (hook : DataFrame → DataFrame)
    (fs : FS) (gdb : GetDbUrl) (rs : ReadSql) (uc cd : Bool)
    (hstab : ∀ df, rs a.sql (gdb a.database_name) = .ok df →
        df.Rectangular ∧ df.stable) :
    (a.get_data_hook hook ((a.get_data_hook hook fs gdb rs uc cd).fs)
        gdb rs uc cd).result
      = (a.get_data_hook hook fs gdb rs uc cd).result := by
  have hres : ∀ g : FS, (a.get_data_hook hook g gdb rs uc cd).result
      = ((a._load_data g gdb rs uc cd).result).map hook := fun _ => rfl
  have hfs : (a.get_data_hook hook fs gdb rs uc cd).fs
      = (a._load_data fs gdb rs uc cd).fs := rfl
  rw [hres, hres, hfs]
  by_cases hc : (os_path_exists fs a.file_name && uc) = true
  · have h1 : (a._load_data fs gdb rs uc cd).fs = fs := by
      rw [load_data_fs_char, if_pos hc]
    rw [h1]
  · cases hrem : rs a.sql (gdb a.database_name) with
    | error e =>
      have h1 : (a._load_data fs gdb rs uc cd).fs = fs := by
        rw [load_data_fs_char, if_neg hc, hrem]
      rw [h1]
    | ok df =>
      cases cd with
      | false =>
        have h1 : (a._load_data fs gdb rs uc false).fs = fs := by
          rw [load_data_fs_char, if_neg hc]
          simp [hrem]
        rw [h1]
      | true =>
        by_cases hne : a.file_name = ""
        · have h1 : (a._load_data fs gdb rs uc true).fs = fs := by
            rw [load_data_fs_char, if_neg hc, hrem]
            simp [fsWrite, hne]
          rw [h1]
        · have hw : fsWrite fs a.file_name (to_csv df false)
              = .ok (fun q =>
                  if q = a.file_name then some (to_csv df false) else fs q) := by
            rw [fsWrite, if_neg hne]
          have h1 : (a._load_data fs gdb rs uc true).fs
              = (fun q =>
                  if q = a.file_name then some (to_csv df false) else fs q) := by
            rw [load_data_fs_char, if_neg hc]
            simp [hrem, hw]
          rw [h1]
          obtain ⟨hrect, hstb⟩ := hstab df hrem
          have hR : (a._load_data fs gdb rs uc true).result = .ok df := by
            rw [load_data_result_char, if_neg hc]
            simp [hrem, hw]
          have happ : (fun q =>
              if q = a.file_name then some (to_csv df false) else fs q)
              a.file_name = some (to_csv df false) := by simp
          have hread : read_csv
              (fun q => if q = a.file_name then some (to_csv df false) else fs q)
              a.file_name = .ok df := by
            unfold read_csv
            rw [happ]
            show parseFileData (to_csv df false) = Except.ok df
            rw [parse_to_csv df hrect, coerce_of_stable df hstb]
          cases uc with
          | true =>
            have hcond : (os_path_exists
                (fun q => if q = a.file_name then some (to_csv df false) else fs q)
                a.file_name && true) = true := by
              simp [os_path_exists, hne]
            have hL : (a._load_data
                (fun q => if q = a.file_name then some (to_csv df false) else fs q)
                gdb rs true true).result
                = read_csv
                    (fun q => if q = a.file_name then some (to_csv df false) else fs q)
                    a.file_name := by
              rw [load_data_result_char, if_pos hcond]
            rw [hL, hread, hR]
          | false =>
            have hcond : ¬((os_path_exists
                (fun q => if q = a.file_name then some (to_csv df false) else fs q)
                a.file_name && false) = true) := by
              simp
            have hL : (a._load_data
                (fun q => if q = a.file_name then some (to_csv df false) else fs q)
                gdb rs false true).result = .ok df := by
              rw [load_data_result_char, if_neg hcond]
              simp [hrem, fsWrite, hne]
            rw [hL, hR]

/-- Witness for the amended C6: with a stable, rectangular remote dataset
the populate-then-read pair of calls agrees. -/
theorem get_data_idempotent_stable_w :
    (wA.get_data_hook id ((wA.get_data_hook id wFS0 id wRS4 true true).fs)
        id wRS4 true true).result
      = (wA.get_data_hook id wFS0 id wRS4 true true).result :=
  get_data_idempotent_stable wA id wFS0 id wRS4 true true
    (fun df hdf => by
      injection hdf with h
      subst h
      exact ⟨by unfold DataFrame.Rectangular; decide,
             by unfold DataFrame.stable; decide⟩)
